import Mathlib

/-!
Shallow embedding of `src/db/db.py` (class `Database`): a SQLite persistence
layer with a transactional execution wrapper (`cursor` context manager and
`execute_query`, the latter decorated with
`tenacity.retry(stop=stop_after_attempt(3), wait=wait_fixed(2),
retry=retry_if_exception_type(sqlite3.OperationalError))`) and nine
single-statement repository operations over four tables.

Modelling conventions:
- SQLite REAL columns hold values that this code only ever stores and
  returns, never computes with, so their carrier is `Rat` (any carrier with
  decidable equality would do; no floating-point arithmetic occurs).
- Wall-clock time (the `CURRENT_TIMESTAMP` column defaults) is a state
  component `clock` read at insertion time.
- Python exceptions are values of `PyExc`; `Except PyExc` replaces raising.
  The sqlite3 exception hierarchy is reflected in the `is...` predicates
  (IntegrityError, OperationalError and ProgrammingError are subclasses of
  DatabaseError).
- A fresh database file has no tables; running any of the repository
  statements against it raises `sqlite3.OperationalError` (no such table).
  `DBState.initialized` records whether `initialize_db` has created the
  schema. SQLite foreign keys are NOT enforced by default (`PRAGMA
  foreign_keys` is never issued by this code), so the inserts into
  `users_transaction`, `users_login_state` and
  `all_transaction_popup_history` cannot fail an integrity check; the only
  constraint that can fire is `UNIQUE` on `users.login`.
- Each `logger.info` / `logger.warning` / `logger.error` call site is one
  `LogEntry` constructor carrying the arguments that the site formats in.
-/

namespace DbSpec

/-- Python exception values relevant to `db.py`. `retryError` is
`tenacity.RetryError`, which wraps the last failed attempt when the retry
budget is exhausted (the decorator leaves `reraise` at its default
`False`). -/
inductive PyExc where
  | integrityError (msg : String)
  | operationalError (msg : String)
  | programmingError (msg : String)
  | databaseError (msg : String)
  | attributeError (msg : String)
  | retryError (last : PyExc)
  | otherException (msg : String)
deriving DecidableEq, Repr

/-- Membership in `sqlite3.IntegrityError` (what `except sqlite3.IntegrityError`
catches). -/
def PyExc.isIntegrityError : PyExc → Bool
  | integrityError _ => true
  | _ => false

/-- Membership in `sqlite3.OperationalError` (the retry predicate's class). -/
def PyExc.isOperationalError : PyExc → Bool
  | operationalError _ => true
  | _ => false

/-- Membership in `sqlite3.DatabaseError`: IntegrityError, OperationalError
and ProgrammingError are its subclasses (what `except sqlite3.DatabaseError`
catches). -/
def PyExc.isDatabaseError : PyExc → Bool
  | integrityError _ => true
  | operationalError _ => true
  | programmingError _ => true
  | databaseError _ => true
  | _ => false

/-- Row of `users(id PK autoincrement, login unique not-null, password
not-null, balance real default 0.0)`. -/
structure UserRow where
  id : Nat
  login : String
  password : String
  balance : Rat
deriving DecidableEq, Repr

/-- Row of `users_transaction(id PK autoincrement, user_id, amount real,
date timestamp default now)`. -/
structure TxRow where
  id : Nat
  userId : Int
  amount : Rat
  date : Nat
deriving DecidableEq, Repr

/-- Row of `users_login_state(id PK autoincrement, tg_user_id integer,
login text, active boolean default 1)`. -/
structure SessionRow where
  id : Nat
  tgUserId : Int
  login : String
  active : Bool
deriving DecidableEq, Repr

/-- Row of `all_transaction_popup_history(id PK autoincrement, user_id,
transaction_id, date timestamp default now, message text)`. -/
structure PopupRow where
  id : Nat
  userId : Int
  transactionId : Int
  date : Nat
  message : String
deriving DecidableEq, Repr

/-- A row of a result set (`SELECT *` over one of the four tables). -/
inductive Row where
  | user (r : UserRow)
  | tx (r : TxRow)
  | session (r : SessionRow)
  | popup (r : PopupRow)
deriving DecidableEq, Repr

/-- State of the database file: whether `initialize_db` has created the
schema, the wall clock, the four tables and their autoincrement counters. -/
structure DBState where
  initialized : Bool
  clock : Nat
  users : List UserRow
  txs : List TxRow
  sessions : List SessionRow
  popups : List PopupRow
  nextUserId : Nat
  nextTxId : Nat
  nextSessionId : Nat
  nextPopupId : Nat
deriving DecidableEq, Repr

/-- The nine parameterized statements the repository operations pass to
`execute_query`, with their bound parameters. -/
inductive Stmt where
  | insertUser (login password : String)
  | selectUserByLogin (login : String)
  | insertTransaction (userId : Int) (amount : Rat)
  | selectTransactionsByUser (userId : Int)
  | insertSession (tgUserId : Int) (login : String)
  | selectActiveSession (tgUserId : Int)
  | deactivateSessions (tgUserId : Int)
  | insertPopupHistory (userId : Int) (transactionId : Int) (message : String)
  | selectPopupHistory (userId : Int)
deriving DecidableEq, Repr

/-- The table a statement touches (used for the `no such table` message when
the schema has not been created). -/
def Stmt.tableName : Stmt → String
  | insertUser _ _ => "users"
  | selectUserByLogin _ => "users"
  | insertTransaction _ _ => "users_transaction"
  | selectTransactionsByUser _ => "users_transaction"
  | insertSession _ _ => "users_login_state"
  | selectActiveSession _ => "users_login_state"
  | deactivateSessions _ => "users_login_state"
  | insertPopupHistory _ _ _ => "all_transaction_popup_history"
  | selectPopupHistory _ => "all_transaction_popup_history"

/-- Semantics of `cursor.execute(query, params)` for the statements of this
module: either a sqlite-level error, or the updated state together with the
result set the cursor would traverse. Inserts and the update produce no
rows. The only reachable integrity violation is the UNIQUE constraint on
`users.login`; the other three tables carry no enforced constraint
(foreign keys are off by default in sqlite3 and never enabled here). -/
def execStmt (q : Stmt) (s : DBState) : Except PyExc (DBState × List Row) :=
  if s.initialized then
    match q with
    | .insertUser login pw =>
        if s.users.any (fun u => u.login == login) then
          .error (.integrityError "UNIQUE constraint failed: users.login")
        else
          .ok ({ s with
                  users := s.users ++ [⟨s.nextUserId, login, pw, 0⟩],
                  nextUserId := s.nextUserId + 1 }, [])
    | .selectUserByLogin login =>
        .ok (s, (s.users.filter (fun u => u.login == login)).map Row.user)
    | .insertTransaction uid amount =>
        .ok ({ s with
                txs := s.txs ++ [⟨s.nextTxId, uid, amount, s.clock⟩],
                nextTxId := s.nextTxId + 1 }, [])
    | .selectTransactionsByUser uid =>
        .ok (s, (s.txs.filter (fun t => t.userId == uid)).map Row.tx)
    | .insertSession tg login =>
        .ok ({ s with
                sessions := s.sessions ++ [⟨s.nextSessionId, tg, login, true⟩],
                nextSessionId := s.nextSessionId + 1 }, [])
    | .selectActiveSession tg =>
        .ok (s, (s.sessions.filter (fun r => r.tgUserId == tg && r.active)).map Row.session)
    | .deactivateSessions tg =>
        .ok ({ s with
                sessions := s.sessions.map (fun r =>
                  if r.tgUserId == tg then { r with active := false } else r) }, [])
    | .insertPopupHistory uid txid msg =>
        .ok ({ s with
                popups := s.popups ++ [⟨s.nextPopupId, uid, txid, s.clock, msg⟩],
                nextPopupId := s.nextPopupId + 1 }, [])
    | .selectPopupHistory uid =>
        .ok (s, (s.popups.filter (fun p => p.userId == uid)).map Row.popup)
  else
    .error (.operationalError ("no such table: " ++ q.tableName))

/-- One `logger.*` call site, with the arguments the site formats into its
message. `cursorErr` is the `logger.error` in the `cursor` context manager;
`queryErr` is the `logger.error` in the except chain of `execute_query`
(which formats in the query and the bound parameters, both carried by the
`Stmt`); the rest are the per-operation call sites. -/
inductive LogEntry where
  | cursorErr (tag : String) (e : PyExc)
  | queryErr (tag : String) (e : PyExc) (q : Stmt)
  | addUserOk (login : String)
  | addUserDup (login : String) (e : PyExc)
  | userRetrieved (login : String)
  | userNotFound (login : String)
  | txAdded (userId : Int) (amount : Rat)
  | txAddFailed (userId : Int) (amount : Rat) (e : PyExc)
  | txRetrieved (userId : Int)
  | sessionAdded (tg : Int) (login : String)
  | sessionAddFailed (tg : Int) (login : String) (e : PyExc)
  | sessionRetrieved (tg : Int)
  | sessionNotFound (tg : Int)
  | sessionDeactivated (tg : Int)
  | popupAdded (userId : Int) (transactionId : Int)
  | popupRetrieved (userId : Int)
deriving DecidableEq, Repr

/-- The severity each call site logs at. -/
inductive LogLevel where
  | info
  | warning
  | error
deriving DecidableEq, Repr

/-- Severity of a log entry, by call site. -/
def LogEntry.level : LogEntry → LogLevel
  | cursorErr _ _ => .error
  | queryErr _ _ _ => .error
  | addUserDup _ _ => .error
  | txAddFailed _ _ _ => .error
  | sessionAddFailed _ _ _ => .error
  | userNotFound _ => .warning
  | sessionNotFound _ => .warning
  | _ => .info

/-- Attribute lookup on a `sqlite3.Cursor` object. CPython's
`sqlite3.Cursor` defines exactly the DB-API attributes `arraysize`,
`connection`, `description`, `lastrowid`, `row_factory` and `rowcount`; it
has no `statement` and no `parameters` attribute (those belong to other
drivers), so looking either of them up raises `AttributeError`. -/
def cursorAttrLookup (name : String) : Except PyExc Unit :=
  if name ∈ ["arraysize", "connection", "description", "lastrowid",
             "row_factory", "rowcount"] then
    .ok ()
  else
    .error (.attributeError ("sqlite3.Cursor object has no attribute " ++ name))

/-- The `AttributeError` raised by evaluating `cursor.statement` in the
logging lines of the `cursor` context manager. -/
def attrStatementErr : PyExc :=
  .attributeError "sqlite3.Cursor object has no attribute statement"

deriving instance DecidableEq for Except

/-- Result of running a body under the `cursor` context manager: the value
returned or exception raised, the database file state after commit or
rollback, and the log entries emitted. -/
structure Outcome (α : Type) where
  result : Except PyExc α
  db : DBState
  log : List LogEntry
deriving DecidableEq, Repr

/-- The `cursor` context manager of `Database`: runs the body on a fresh
connection; on success commits (the body's state becomes the file state);
on any exception rolls back (the file keeps its original state) and then
executes `logger.error(..., cursor.statement, cursor.parameters)` — whose
eager evaluation of `cursor.statement` raises `AttributeError` inside the
except block, so the entry is never emitted and the `raise e` line is never
reached: the `AttributeError` propagates instead of the original
exception. The intended branch (log the classified error and re-raise it)
is kept after the attribute lookup, where the source has it. -/
def cursorRun {α : Type} (db : DBState)
    (body : DBState → Except PyExc (DBState × α)) : Outcome α :=
  match body db with
  | .ok (db2, a) => ⟨.ok a, db2, []⟩
  | .error e =>
      match cursorAttrLookup "statement" with
      | .error exc => ⟨.error exc, db, []⟩
      | .ok _ =>
          let tag := if e.isDatabaseError then "Database error" else "Unexpected error"
          ⟨.error e, db, [LogEntry.cursorErr tag e]⟩

/-- A result cursor handle. The `with self.cursor() as cursor` block of
`execute_query` closes the cursor (and its connection) on exit, so the
handle `execute_query` returns is always closed. -/
structure Cursor where
  rows : List Row
  closed : Bool
deriving DecidableEq, Repr

/-- `cursor.fetchone()`: raises `sqlite3.ProgrammingError` on a closed
cursor, otherwise yields the first row of the result set, if any. -/
def Cursor.fetchone (c : Cursor) : Except PyExc (Option Row) :=
  if c.closed then
    .error (.programmingError "Cannot operate on a closed cursor.")
  else
    .ok c.rows.head?

/-- `cursor.fetchall()`: raises `sqlite3.ProgrammingError` on a closed
cursor, otherwise yields the whole result set. -/
def Cursor.fetchall (c : Cursor) : Except PyExc (List Row) :=
  if c.closed then
    .error (.programmingError "Cannot operate on a closed cursor.")
  else
    .ok c.rows

/-- One attempt of the body of `execute_query`: run the statement under the
`cursor` context manager, return the (closed-on-exit) cursor on success;
on an exception, classify it in the except chain, log it together with the
query and its parameters, and re-raise the same exception. -/
def executeOnce (db : DBState) (q : Stmt) : Outcome Cursor :=
  let o := cursorRun db (fun s => execStmt q s)
  match o.result with
  | .ok rows => ⟨.ok ⟨rows, true⟩, o.db, o.log⟩
  | .error e =>
      let tag :=
        if e.isIntegrityError then "Integrity error"
        else if e.isOperationalError then "Operational error"
        else if e.isDatabaseError then "Database error"
        else "Unexpected error"
      ⟨.error e, o.db, o.log ++ [LogEntry.queryErr tag e q]⟩

/-- The retry predicate of the decorator:
`retry_if_exception_type(sqlite3.OperationalError)` — retry exactly when
the raised exception is a `sqlite3.OperationalError`. -/
def retryPred (e : PyExc) : Bool := e.isOperationalError

/-- Result of a call to `execute_query`: outcome, file state, accumulated
log, number of underlying attempts made, and seconds spent in
`wait_fixed(2)` waits between attempts. -/
structure RunResult where
  result : Except PyExc Cursor
  db : DBState
  log : List LogEntry
  attempts : Nat
  waited : Nat
deriving DecidableEq, Repr

/-- The `tenacity.retry` loop around the body of `execute_query`, with
`stop_after_attempt(3)` and `wait_fixed(2)`: on a retryable failure with
attempts remaining, wait 2 seconds and re-run the whole
acquire-execute-commit sequence (a failed attempt was rolled back, so the
file state is unchanged); when the stop condition is reached the loop
raises `RetryError` wrapping the last exception (the decorator leaves
`reraise=False`); a non-retryable exception is re-raised at once. `fuel` is
the number of attempts still allowed, initially 3. -/
def executeGo (db : DBState) (q : Stmt) :
    Nat → Nat → Nat → List LogEntry → RunResult
  | 0, done, waited, acc =>
      ⟨.error (.otherException "retry loop exhausted"), db, acc, done, waited⟩
  | Nat.succ rem, done, waited, acc =>
      let o := executeOnce db q
      match o.result with
      | .ok c => ⟨.ok c, o.db, acc ++ o.log, done + 1, waited⟩
      | .error e =>
          if retryPred e then
            match rem with
            | 0 => ⟨.error (.retryError e), db, acc ++ o.log, done + 1, waited⟩
            | Nat.succ _ => executeGo db q rem (done + 1) (waited + 2) (acc ++ o.log)
          else
            ⟨.error e, db, acc ++ o.log, done + 1, waited⟩

/-- `Database.execute_query(query, params)` with its retry decorator. -/
def execute_query (db : DBState) (q : Stmt) : RunResult :=
  executeGo db q 3 0 0 []

/-- `Database.initialize_db`: create the four tables if absent, through the
`cursor` context manager (idempotent; the body cannot fail in this model). -/
def init_db (db : DBState) : Outcome Unit :=
  cursorRun db (fun s => .ok ({ s with initialized := true }, ()))

/-- `Database.add_user(login, password)`: insert, log success at INFO;
catch `sqlite3.IntegrityError` only, log it at ERROR and swallow it; any
other exception propagates. -/
def add_user (db : DBState) (login password : String) : Outcome Unit :=
  let r := execute_query db (.insertUser login password)
  match r.result with
  | .ok _ => ⟨.ok (), r.db, r.log ++ [.addUserOk login]⟩
  | .error e =>
      if e.isIntegrityError then
        ⟨.ok (), r.db, r.log ++ [.addUserDup login e]⟩
      else
        ⟨.error e, r.db, r.log⟩

/-- `Database.get_user(login)`: run the select, then `fetchone()` on the
returned cursor; log INFO when a row came back, WARNING when not; return
the row or `none`. Exceptions propagate (there is no try block here). -/
def get_user (db : DBState) (login : String) : Outcome (Option Row) :=
  let r := execute_query db (.selectUserByLogin login)
  match r.result with
  | .error e => ⟨.error e, r.db, r.log⟩
  | .ok cur =>
      match cur.fetchone with
      | .error e => ⟨.error e, r.db, r.log⟩
      | .ok (some u) => ⟨.ok (some u), r.db, r.log ++ [.userRetrieved login]⟩
      | .ok none => ⟨.ok none, r.db, r.log ++ [.userNotFound login]⟩

/-- `Database.add_transaction(user_id, amount)`: insert, log success; catch
`sqlite3.IntegrityError` only, log and swallow; anything else propagates. -/
def add_transaction (db : DBState) (uid : Int) (amount : Rat) : Outcome Unit :=
  let r := execute_query db (.insertTransaction uid amount)
  match r.result with
  | .ok _ => ⟨.ok (), r.db, r.log ++ [.txAdded uid amount]⟩
  | .error e =>
      if e.isIntegrityError then
        ⟨.ok (), r.db, r.log ++ [.txAddFailed uid amount e]⟩
      else
        ⟨.error e, r.db, r.log⟩

/-- `Database.get_transactions(user_id)`: select then `fetchall()` on the
returned cursor; log INFO; exceptions propagate. -/
def get_transactions (db : DBState) (uid : Int) : Outcome (List Row) :=
  let r := execute_query db (.selectTransactionsByUser uid)
  match r.result with
  | .error e => ⟨.error e, r.db, r.log⟩
  | .ok cur =>
      match cur.fetchall with
      | .error e => ⟨.error e, r.db, r.log⟩
      | .ok rows => ⟨.ok rows, r.db, r.log ++ [.txRetrieved uid]⟩

/-- `Database.add_session(tg_user_id, login)`: insert (active defaults to
1), log success; catch `sqlite3.IntegrityError` only, log and swallow;
anything else propagates. -/
def add_session (db : DBState) (tg : Int) (login : String) : Outcome Unit :=
  let r := execute_query db (.insertSession tg login)
  match r.result with
  | .ok _ => ⟨.ok (), r.db, r.log ++ [.sessionAdded tg login]⟩
  | .error e =>
      if e.isIntegrityError then
        ⟨.ok (), r.db, r.log ++ [.sessionAddFailed tg login e]⟩
      else
        ⟨.error e, r.db, r.log⟩

/-- `Database.get_active_session(tg_user_id)`: select rows with matching
external id and `active = 1`, then `fetchone()` on the returned cursor;
log INFO when found, WARNING when not; exceptions propagate. -/
def get_active_session (db : DBState) (tg : Int) : Outcome (Option Row) :=
  let r := execute_query db (.selectActiveSession tg)
  match r.result with
  | .error e => ⟨.error e, r.db, r.log⟩
  | .ok cur =>
      match cur.fetchone with
      | .error e => ⟨.error e, r.db, r.log⟩
      | .ok (some s) => ⟨.ok (some s), r.db, r.log ++ [.sessionRetrieved tg]⟩
      | .ok none => ⟨.ok none, r.db, r.log ++ [.sessionNotFound tg]⟩

/-- `Database.deactivate_session(tg_user_id)`: update every
`users_login_state` row with that external id to `active = 0`; log INFO;
no try block, exceptions propagate. -/
def deactivate_session (db : DBState) (tg : Int) : Outcome Unit :=
  let r := execute_query db (.deactivateSessions tg)
  match r.result with
  | .ok _ => ⟨.ok (), r.db, r.log ++ [.sessionDeactivated tg]⟩
  | .error e => ⟨.error e, r.db, r.log⟩

/-- `Database.add_popup_history(user_id, transaction_id, message)`: insert
and log INFO; no try block at this layer, so exceptions propagate. -/
def add_popup_history (db : DBState) (uid txid : Int) (msg : String) : Outcome Unit :=
  let r := execute_query db (.insertPopupHistory uid txid msg)
  match r.result with
  | .ok _ => ⟨.ok (), r.db, r.log ++ [.popupAdded uid txid]⟩
  | .error e => ⟨.error e, r.db, r.log⟩

/-- `Database.get_popup_history(user_id)`: select then `fetchall()` on the
returned cursor; log INFO; exceptions propagate. -/
def get_popup_history (db : DBState) (uid : Int) : Outcome (List Row) :=
  let r := execute_query db (.selectPopupHistory uid)
  match r.result with
  | .error e => ⟨.error e, r.db, r.log⟩
  | .ok cur =>
      match cur.fetchall with
      | .error e => ⟨.error e, r.db, r.log⟩
      | .ok rows => ⟨.ok rows, r.db, r.log ++ [.popupRetrieved uid]⟩

/-- A fresh database file: no tables yet. -/
def freshDb : DBState := ⟨false, 0, [], [], [], [], 1, 1, 1, 1⟩

/-- The file after `initialize_db`. -/
def dbInit : DBState := (init_db freshDb).db

/-- The file after `initialize_db` and `add_user("alice", "p1")`. -/
def dbAlice : DBState := (add_user dbInit "alice" "p1").db

/-- The file after `initialize_db` and `add_session(42, "alice")`. -/
def dbS1 : DBState := (add_session dbInit 42 "alice").db

/-- The file after a second `add_session(42, "alice")` on top of `dbS1`. -/
def dbS2 : DBState := (add_session dbS1 42 "alice").db

/-- When the statement itself succeeds, `execute_query` commits the body's
state, returns the closed cursor over the produced rows, logs nothing,
makes one attempt and never waits. -/
theorem execute_query_of_ok (db db2 : DBState) (q : Stmt) (rows : List Row)
    (h : execStmt q db = Except.ok (db2, rows)) :
    execute_query db q = ⟨Except.ok ⟨rows, true⟩, db2, [], 1, 0⟩ := by
  simp [execute_query, executeGo, executeOnce, cursorRun, h]

/-- Claim C1: the spec says that when the wrapped execution succeeds,
`execute_query` commits and returns a handle from which the caller can read
the produced rows. The commit part holds (the row inserted earlier is
durable and the select produces it inside the wrapper), but the `return
cursor` sits inside the `with self.cursor()` block, whose exit closes the
cursor and its connection, so the handle `execute_query` hands back is
closed and reading from it raises `sqlite3.ProgrammingError` instead of
yielding the rows. -/
theorem execute_query_returns_closed_cursor :
    dbAlice.users = [⟨1, "alice", "p1", 0⟩] ∧
    (execute_query dbAlice (Stmt.selectUserByLogin "alice")).result
      = Except.ok ⟨[Row.user ⟨1, "alice", "p1", 0⟩], true⟩ ∧
    Cursor.fetchone ⟨[Row.user ⟨1, "alice", "p1", 0⟩], true⟩
      = Except.error (PyExc.programmingError "Cannot operate on a closed cursor.") := by
  decide

/-- Claim C2: the spec says a failing statement is rolled back, logged at
ERROR with the statement text and parameters, and the classified error is
re-raised. On a duplicate insert the store raises `IntegrityError` and the
rollback does happen (the file state is unchanged), but the `logger.error`
line in the `cursor` context manager eagerly evaluates `cursor.statement`,
an attribute `sqlite3.Cursor` does not have, so an `AttributeError` is
raised inside the except block: the caller receives that `AttributeError`,
not the classified store error, and the only ERROR entry naming the
statement and parameters (emitted one level up, in `execute_query`)
carries the `AttributeError` instead of the store error. -/
theorem execute_query_failure_replaced_by_attribute_error :
    execStmt (Stmt.insertUser "alice" "p2") dbAlice
      = Except.error (PyExc.integrityError "UNIQUE constraint failed: users.login") ∧
    execute_query dbAlice (Stmt.insertUser "alice" "p2")
      = ⟨Except.error attrStatementErr, dbAlice,
         [LogEntry.queryErr "Unexpected error" attrStatementErr
            (Stmt.insertUser "alice" "p2")], 1, 0⟩ := by
  decide

/-- Claim C3: the spec says a transient operational error is retried up to
3 attempts with 2-second waits and that on exhaustion the last underlying
error propagates. In the code the `OperationalError` raised by the store
(here: a statement against a missing table) is replaced by an
`AttributeError` inside the `cursor` context manager before the tenacity
predicate ever sees it, so the retry never fires: one attempt, no wait,
and an `AttributeError` (not the operational error) propagates — even
though the predicate itself would have classified the error as
retryable. -/
theorem transient_operational_error_not_retried :
    execStmt (Stmt.selectUserByLogin "alice") freshDb
      = Except.error (PyExc.operationalError "no such table: users") ∧
    retryPred (PyExc.operationalError "no such table: users") = true ∧
    (execute_query freshDb (Stmt.selectUserByLogin "alice")).attempts = 1 ∧
    (execute_query freshDb (Stmt.selectUserByLogin "alice")).waited = 0 ∧
    (execute_query freshDb (Stmt.selectUserByLogin "alice")).result
      = Except.error attrStatementErr := by
  decide

/-- Claim C4: the spec says a second `add_user` with the same login is a
silent no-op. Exactly one row for the login does remain, but the
`IntegrityError` never reaches the `except sqlite3.IntegrityError` handler
of `add_user`: the broken logging line in `cursor` replaces it with an
`AttributeError`, which `add_user` does not catch, so the second call
raises to the caller. -/
theorem add_user_twice_raises_on_second_call :
    ((add_user dbAlice "alice" "p2").db.users.filter
        (fun u => u.login == "alice")).length = 1 ∧
    (add_user dbAlice "alice" "p2").result = Except.error attrStatementErr := by
  decide

/-- Claim C5: the spec says `add_user("alice","p1")` then
`get_user("alice")` returns the row with balance 0.0. The row is created
exactly as described, but `get_user` calls `fetchone()` on the closed
cursor returned by `execute_query`, which raises
`sqlite3.ProgrammingError` — the round trip never returns the row. -/
theorem add_then_get_user_raises :
    dbAlice.users = [⟨1, "alice", "p1", 0⟩] ∧
    (get_user dbAlice "alice").result
      = Except.error (PyExc.programmingError "Cannot operate on a closed cursor.") := by
  decide

/-- Claim C6: the spec's session lifecycle. The inserts and the update work
at the store level — `deactivate_session` does set `active = 0` on every
row with that external id — but `get_active_session` calls `fetchone()` on
the closed cursor returned by `execute_query`, so it raises
`sqlite3.ProgrammingError` both before and after deactivation instead of
returning the row, respectively an absent result. -/
theorem session_lifecycle_reads_raise :
    dbS1.sessions = [⟨1, 42, "alice", true⟩] ∧
    (get_active_session dbS1 42).result
      = Except.error (PyExc.programmingError "Cannot operate on a closed cursor.") ∧
    (deactivate_session dbS2 42).db.sessions
      = [⟨1, 42, "alice", false⟩, ⟨2, 42, "alice", false⟩] ∧
    (get_active_session (deactivate_session dbS2 42).db 42).result
      = Except.error (PyExc.programmingError "Cannot operate on a closed cursor.") := by
  decide

/-- Claim C7: the spec says a lookup of a login with no matching row
returns an absent result and logs a warning. `get_user` raises
`sqlite3.ProgrammingError` at `fetchone()` on the closed cursor before the
not-found branch is reached: no warning is logged and the caller gets an
exception, not an absent result. -/
theorem get_user_not_found_raises :
    dbInit.users = [] ∧
    (get_user dbInit "bob").result
      = Except.error (PyExc.programmingError "Cannot operate on a closed cursor.") ∧
    (get_user dbInit "bob").log = [] := by
  decide

/-- Claim C8: the spec says `add_popup_history` propagates the store error
while `add_user`, `add_transaction` and `add_session` swallow integrity
violations. `add_popup_history` indeed has no handler, but what propagates
from a failing insert is the `AttributeError` produced by the broken
logging line, not the store error itself; and the integrity-swallowing in
the other three is dead code, because an `IntegrityError` is likewise
replaced by an `AttributeError` (not an integrity error) before reaching
their handlers — shown here for `add_user` on a duplicate login. -/
theorem add_popup_history_propagates_transformed_error :
    execStmt (Stmt.insertPopupHistory 1 1 "hi") freshDb
      = Except.error (PyExc.operationalError
          "no such table: all_transaction_popup_history") ∧
    (add_popup_history freshDb 1 1 "hi").result = Except.error attrStatementErr ∧
    (add_user dbAlice "alice" "p2").result = Except.error attrStatementErr ∧
    PyExc.isIntegrityError attrStatementErr = false := by
  decide

/-- Claim C9: the retry predicate `retry_if_exception_type(OperationalError)`
does classify every `sqlite3.OperationalError` as retryable — not only
locked/busy conditions — but it never sees one: a statement against a
missing table raises `OperationalError` in the store, which the `cursor`
context manager replaces with an `AttributeError`, so the statement is
attempted once with no 2-second waits rather than 3 times. -/
theorem every_operational_error_retryable_but_unreachable :
    (∀ m : String, retryPred (PyExc.operationalError m) = true) ∧
    execStmt (Stmt.insertUser "alice" "p1") freshDb
      = Except.error (PyExc.operationalError "no such table: users") ∧
    (execute_query freshDb (Stmt.insertUser "alice" "p1")).attempts = 1 ∧
    (execute_query freshDb (Stmt.insertUser "alice" "p1")).waited = 0 := by
  exact ⟨fun m => rfl, by decide, by decide, by decide⟩

/-- Claim C10: `users_login_state` carries no uniqueness or foreign-key
constraint, so the insert issued by `add_session` can never raise an
integrity violation (on an uninitialized file it raises an operational
error, never an integrity error), and two `add_session` calls with the
same external id stack two rows, both with `active = true`. -/
theorem add_session_never_integrity_and_stacks_active_rows
    (db : DBState) (tg : Int) (l1 l2 : String) (h : db.initialized = true) :
    (∀ (s : DBState) (m : String),
        execStmt (Stmt.insertSession tg l1) s ≠ Except.error (PyExc.integrityError m)) ∧
    (add_session db tg l1).result = Except.ok () ∧
    (add_session (add_session db tg l1).db tg l2).result = Except.ok () ∧
    (add_session (add_session db tg l1).db tg l2).db.sessions
      = db.sessions ++ [⟨db.nextSessionId, tg, l1, true⟩,
                        ⟨db.nextSessionId + 1, tg, l2, true⟩] := by
  have h1 : execStmt (Stmt.insertSession tg l1) db
      = Except.ok ({ db with
          sessions := db.sessions ++ [⟨db.nextSessionId, tg, l1, true⟩],
          nextSessionId := db.nextSessionId + 1 }, ([] : List Row)) := by
    simp [execStmt, h]
  have a1 : add_session db tg l1
      = ⟨Except.ok (), { db with
          sessions := db.sessions ++ [⟨db.nextSessionId, tg, l1, true⟩],
          nextSessionId := db.nextSessionId + 1 },
         [LogEntry.sessionAdded tg l1]⟩ := by
    simp [add_session, execute_query_of_ok _ _ _ _ h1]
  have h2 : execStmt (Stmt.insertSession tg l2)
      ({ db with
          sessions := db.sessions ++ [⟨db.nextSessionId, tg, l1, true⟩],
          nextSessionId := db.nextSessionId + 1 })
      = Except.ok ({ db with
          sessions := (db.sessions ++ [⟨db.nextSessionId, tg, l1, true⟩])
            ++ [⟨db.nextSessionId + 1, tg, l2, true⟩],
          nextSessionId := db.nextSessionId + 1 + 1 }, ([] : List Row)) := by
    simp [execStmt, h]
  have a2 : add_session ({ db with
          sessions := db.sessions ++ [⟨db.nextSessionId, tg, l1, true⟩],
          nextSessionId := db.nextSessionId + 1 }) tg l2
      = ⟨Except.ok (), { db with
          sessions := (db.sessions ++ [⟨db.nextSessionId, tg, l1, true⟩])
            ++ [⟨db.nextSessionId + 1, tg, l2, true⟩],
          nextSessionId := db.nextSessionId + 1 + 1 },
         [LogEntry.sessionAdded tg l2]⟩ := by
    simp [add_session, execute_query_of_ok _ _ _ _ h2]
  refine ⟨?_, ?_, ?_, ?_⟩
  · intro s m
    by_cases hs : s.initialized <;> simp [execStmt, hs]
  · rw [a1]
  · rw [a1]
    rw [a2]
  · rw [a1]
    rw [a2]
    simp

/-- Witness for claim C10 at a concrete input: the initialized empty file,
external id 42 and logins "alice" twice. -/
theorem add_session_never_integrity_witness :
    dbInit.initialized = true ∧
    (add_session (add_session dbInit 42 "alice").db 42 "alice").db.sessions
      = dbInit.sessions ++ [⟨dbInit.nextSessionId, 42, "alice", true⟩,
                            ⟨dbInit.nextSessionId + 1, 42, "alice", true⟩] :=
  ⟨by decide,
   (add_session_never_integrity_and_stacks_active_rows dbInit 42 "alice" "alice"
      (by decide)).2.2.2⟩

end DbSpec
